import Mathlib

/-!
Verification of the `gollipse` ellipse package.

The Go code is shallowly embedded over the real numbers: `float64`
arithmetic is modelled by `ℝ` (IEEE NaN/infinity special values are out of
the model and noted where a property depends on them).  Fallible Go
functions return an `Outcome`: a Go `panic` is the `abort` constructor, an
error return is `err`, and a successful return is `ok`.

The repository contains three revisions of the same package:
* revision 1 (first block of `ellipse/ellipse.go`): `Ellipse{a, b, angle}`,
  `New(a, b, angle)`, `NewDataConfidence(x, y []float64, confidence)`,
  `LinePoints`, `Eccentricity`;
* revision 2 (second block of `ellipse/ellipse.go`): adds `xmean`/`ymean`
  to the struct, `NewWithConfidence(data mat.Matrix, confidence)`, and
  `LinePoints` translates the rotated points by the means;
* revision 3 (`unnamed/part_002`): same as revision 2 with the center
  fields named `x`/`y` and set from explicit `New(x, y, a, b, angle)`
  arguments.

External gonum library calls are modelled from their documented
mathematical semantics (sample mean, sample covariance with `n-1`
normalization, eigen-decomposition of the 2x2 covariance matrix in
descending order, the chi-squared(2) inverse CDF, and `floats.Span`).
-/

namespace Gollipse

noncomputable section
open Real

/-- Result of a Go call: `abort` models a Go `panic`, `err` an error
return (the companion object pointer is `nil`), `ok` a successful return. -/
inductive Outcome (α : Type) where
  | abort : String → Outcome α
  | err : String → Outcome α
  | ok : α → Outcome α

/-- True exactly when the call returned successfully. -/
def Outcome.isOk {α : Type} : Outcome α → Bool
  | .ok _ => true
  | _ => false

/-- True exactly when the call returned a structured (caller-recoverable) error. -/
def Outcome.isErr {α : Type} : Outcome α → Bool
  | .err _ => true
  | _ => false

/-- True exactly when the call aborted with a Go `panic`. -/
def Outcome.isAbort {α : Type} : Outcome α → Bool
  | .abort _ => true
  | _ => false

/-- The returned value, when the call succeeded. -/
def Outcome.get? {α : Type} : Outcome α → Option α
  | .ok a => some a
  | _ => none

/-- Revision-1 `Ellipse` struct: semi-axis distances `a`, `b` and rotation
`angle` (fields of `ellipse.Ellipse`, first block of `ellipse/ellipse.go`). -/
structure Ellipse1 where
  a : ℝ
  b : ℝ
  angle : ℝ

/-- Revision-2 `Ellipse` struct: adds the data means used as the curve
center (second block of `ellipse/ellipse.go`; revision 3 names these
fields `x`/`y` but uses them identically). -/
structure Ellipse where
  a : ℝ
  b : ℝ
  angle : ℝ
  xmean : ℝ
  ymean : ℝ

/-- Arithmetic mean of a sequence, as computed by gonum `stat.Mean` with
nil weights: the sum divided by the length. -/
def mean (xs : List ℝ) : ℝ := xs.sum / xs.length

/-- Sample covariance of two equal-length coordinate sequences with the
`n-1` normalization used throughout gonum (`stat.PC` reports the variances
of the principal components of the centered data divided by `n-1`).
`covXY x x` is the sample variance of `x`. -/
def covXY (xs ys : List ℝ) : ℝ :=
  ((xs.zip ys).map (fun p => (p.1 - mean xs) * (p.2 - mean ys))).sum /
    ((xs.length : ℝ) - 1)

/-- Trace of the 2x2 sample covariance matrix of the dataset. -/
def trCov (x y : List ℝ) : ℝ := covXY x x + covXY y y

/-- Determinant of the 2x2 sample covariance matrix of the dataset. -/
def detCov (x y : List ℝ) : ℝ := covXY x x * covXY y y - covXY x y * covXY x y

/-- Discriminant of the characteristic polynomial of the 2x2 sample
covariance matrix; it is a sum of squares, hence nonnegative. -/
def discCov (x y : List ℝ) : ℝ :=
  (covXY x x - covXY y y) ^ 2 + 4 * covXY x y ^ 2

/-- Larger eigenvalue of the 2x2 sample covariance matrix: the first entry
of gonum `pc.VarsTo`, which reports the principal-component variances in
descending order. -/
def eig0 (x y : List ℝ) : ℝ := (trCov x y + Real.sqrt (discCov x y)) / 2

/-- Smaller eigenvalue of the 2x2 sample covariance matrix: the second
entry of gonum `pc.VarsTo`. -/
def eig1 (x y : List ℝ) : ℝ := (trCov x y - Real.sqrt (discCov x y)) / 2

/-- Two-argument arctangent `atan2 y x`, modelled as the argument of the
complex number `x + i*y`, which like Go `math.Atan2` lies in `(-pi, pi]`. -/
def atan2 (y x : ℝ) : ℝ := Complex.arg { re := x, im := y }

/-- The angle normalization both confidence constructors apply: when the
`atan2` result is negative, `2*pi` is added to move it into `[0, 2*pi)`. -/
def normAngle (t : ℝ) : ℝ := if t < 0 then t + 2 * Real.pi else t

/-- Rotation angle the confidence constructors store.  The code computes
`math.Atan2(eigVecs.At(0, 1), eigVecs.At(0, 0))` on the matrix returned by
gonum `pc.VectorsTo`, whose documented layout stores the unit eigenvectors
in its columns in descending-eigenvalue order; the per-column sign is not
fixed by that documentation.  This model fixes the representative
eigenvector of `eig0` as `(eig0 - covXY y y, covXY x y)` (an eigenvector
whenever the covariance matrix is not a multiple of the identity) and the
second column as its clockwise quarter-turn, under which `At(0, 1)`
becomes the y-component of the first eigenvector. -/
def pcaAngle (x y : List ℝ) : ℝ :=
  normAngle (atan2 (covXY x y) (eig0 x y - covXY y y))

/-- Chi-squared quantile (inverse CDF) with 2 degrees of freedom, the
closed form of `distuv.ChiSquared{K: 2, Src: src}.Quantile(p)`: the CDF is
`1 - exp(-q/2)`, so the quantile is `-2*ln(1-p)`.  The quantile is a
deterministic inverse-CDF computation; the seeded `rand` source the code
passes is never consulted by it.  At `p = 1` the true quantile is `+Inf`,
which the real-valued model cannot represent (`Real.log 0 = 0` makes this
model value `0` there). -/
def chi2Quantile2 (p : ℝ) : ℝ := -2 * Real.log (1 - p)

/-- Revision-1 `New`: rejects nonpositive semi-axis distances, otherwise
stores `a`, `b`, `angle` unchanged (first block of `ellipse/ellipse.go`).
Revision 2 is identical except that it also zeroes the center fields; it
is modelled by `New` below. -/
def New1 (a b angle : ℝ) : Outcome Ellipse1 :=
  if a ≤ 0 ∨ b ≤ 0 then .err "Invald ellipse axis" else .ok ⟨a, b, angle⟩

/-- Revision-2 `New`: same validation, stores the parameters unchanged and
sets the center `(xmean, ymean)` to the origin. -/
def New (a b angle : ℝ) : Outcome Ellipse :=
  if a ≤ 0 ∨ b ≤ 0 then .err "Invald ellipse axis"
  else .ok ⟨a, b, angle, 0, 0⟩

/-- Revision-3 `New` (`unnamed/part_002`): same validation, additionally
takes the origin `(x, y)` and stores it in the center fields. -/
def NewXY (x y a b angle : ℝ) : Outcome Ellipse :=
  if a ≤ 0 ∨ b ≤ 0 then .err "Invald ellipse axis"
  else .ok ⟨a, b, angle, x, y⟩

/-- Revision-1 `NewDataConfidence`: panics when either coordinate list is
empty or when the lengths differ (in that order, before anything else is
computed), returns an error when the confidence is outside `(0, 1]`, and
otherwise builds the ellipse with `a = sqrt(q) * sqrt(eig0)` and
`b = sqrt(q) * sqrt(eig1)` where `q` is the chi-squared(2) quantile at the
confidence.  The `pc.PrincipalComponents` success check (a panic on
failure) always succeeds in exact arithmetic and is not modelled. -/
def NewDataConfidence (x y : List ℝ) (confidence : ℝ) : Outcome Ellipse1 :=
  if x.length = 0 ∨ y.length = 0 then .abort "Empty coordinates supplied"
  else if x.length ≠ y.length then .abort "Coordinates dimension mismatch"
  else if confidence ≤ 0 ∨ 1 < confidence then .err "Invalid confidence level"
  else
    .ok ⟨Real.sqrt (chi2Quantile2 confidence) * Real.sqrt (eig0 x y),
         Real.sqrt (chi2Quantile2 confidence) * Real.sqrt (eig1 x y),
         pcaAngle x y⟩

/-- Revision-2 `NewWithConfidence` (and revision-3 `NewWithDataConfidence`):
takes the two columns of the `n x 2` data matrix (a matrix input cannot
have mismatched column lengths), checks the confidence first, then stores
the column means as the center and builds the axes as `a = sqrt(q * eig0)`
and `b = sqrt(q * eig1)`.  The nil-matrix and `pc.PrincipalComponents`
panics have no counterpart on list inputs in exact arithmetic. -/
def NewWithConfidence (x y : List ℝ) (confidence : ℝ) : Outcome Ellipse :=
  if confidence ≤ 0 ∨ 1 < confidence then .err "Invalid confidence level"
  else
    .ok ⟨Real.sqrt (chi2Quantile2 confidence * eig0 x y),
         Real.sqrt (chi2Quantile2 confidence * eig1 x y),
         pcaAngle x y, mean x, mean y⟩

/-- gonum `floats.Span(make([]float64, n), 0, 2*pi)` for `n ≥ 2`: the `n`
evenly spaced parameter values `i * (2*pi/(n-1))`, starting at `0` and
ending at `2*pi` inclusive. -/
def span (n : ℕ) : List ℝ :=
  (List.range n).map (fun i : ℕ => (i : ℝ) * (2 * Real.pi / ((n : ℝ) - 1)))

/-- One generated curve point: the unrotated boundary point
`(a*cos t, b*sin t)` multiplied as a row vector by the rotation matrix
`[[cos angle, sin angle], [-sin angle, cos angle]]` and then translated by
the center `(xmean, ymean)`. -/
def ellipsePoint (e : Ellipse) (t : ℝ) : ℝ × ℝ :=
  (e.a * Real.cos t * Real.cos e.angle - e.b * Real.sin t * Real.sin e.angle
     + e.xmean,
   e.a * Real.cos t * Real.sin e.angle + e.b * Real.sin t * Real.cos e.angle
     + e.ymean)

/-- Revision-2/3 `LinePoints` (revision 1 is the `xmean = ymean = 0` case,
with no translation step): `make([]float64, size)` panics at runtime for a
negative size, and `floats.Span` is documented to panic when its
destination has length below 2; otherwise the curve is the parameter span
mapped through rotation and translation.  `plotter.NewLinePoints` only
fails when a coordinate is NaN or infinite, which cannot happen in exact
real arithmetic, so the success branch is unconditional here. -/
def LinePoints (e : Ellipse) (size : ℤ) : Outcome (List (ℝ × ℝ)) :=
  if size < 0 then .abort "runtime error: makeslice: len out of range"
  else if size < 2 then .abort "floats: destination must have length >1"
  else .ok ((span size.toNat).map (ellipsePoint e))

/-- Radicand of the `Eccentricity` accessor, `1 - a^2/b^2`.  In Go,
`math.Sqrt` of a negative radicand is NaN; the real-valued model records
the sign of the radicand instead. -/
def Ellipse1.eccRadicand (e : Ellipse1) : ℝ := 1 - e.a * e.a / (e.b * e.b)

/-- Revision-1 `Eccentricity`: `sqrt(1 - a^2/b^2)` (identical in all
three revisions). -/
def Ellipse1.Eccentricity (e : Ellipse1) : ℝ := Real.sqrt e.eccRadicand

/-- Dataset of the C2 scenario and of the Go unit test: `x = [1, 2]`,
`y = [1, 2]`. -/
def xs12 : List ℝ := [1, 2]

/-- Dataset with all four corners of the unit square: its covariance
matrix is `(1/3) * I`, so both eigenvalues are equal. -/
def xsSquare : List ℝ := [0, 1, 0, 1]

/-- Second coordinate of the unit-square dataset. -/
def ysSquare : List ℝ := [0, 0, 1, 1]

/-- Ellipse of the Go unit tests and of claim C6: `a=1`, `b=3`, `angle=pi`,
centered at the origin. -/
def testEllipse : Ellipse := ⟨1, 3, Real.pi, 0, 0⟩

/-- Curve of three points generated from the test ellipse. -/
def testCurve3 : List (ℝ × ℝ) := (span (3 : ℤ).toNat).map (ellipsePoint testEllipse)

/-- Ellipse `NewDataConfidence` returns on the scenario dataset at
confidence `0.05`. -/
def scenarioEllipse1 : Ellipse1 :=
  ⟨Real.sqrt (chi2Quantile2 0.05) * Real.sqrt (eig0 xs12 xs12),
   Real.sqrt (chi2Quantile2 0.05) * Real.sqrt (eig1 xs12 xs12),
   pcaAngle xs12 xs12⟩

/-- Ellipse `NewWithConfidence` returns on the scenario dataset at
confidence `0.05`. -/
def scenarioEllipse : Ellipse :=
  ⟨Real.sqrt (chi2Quantile2 0.05 * eig0 xs12 xs12),
   Real.sqrt (chi2Quantile2 0.05 * eig1 xs12 xs12),
   pcaAngle xs12 xs12, mean xs12, mean xs12⟩

/-- Ellipse `NewWithConfidence` returns on the unit-square dataset at
confidence `0.5`. -/
def sqEllipseHalf : Ellipse :=
  ⟨Real.sqrt (chi2Quantile2 0.5 * eig0 xsSquare ysSquare),
   Real.sqrt (chi2Quantile2 0.5 * eig1 xsSquare ysSquare),
   pcaAngle xsSquare ysSquare, mean xsSquare, mean ysSquare⟩

/-- Ellipse `NewWithConfidence` returns on the unit-square dataset at
confidence `0.95`. -/
def sqEllipse95 : Ellipse :=
  ⟨Real.sqrt (chi2Quantile2 0.95 * eig0 xsSquare ysSquare),
   Real.sqrt (chi2Quantile2 0.95 * eig1 xsSquare ysSquare),
   pcaAngle xsSquare ysSquare, mean xsSquare, mean ysSquare⟩

/-! ## Supporting lemmas about the covariance eigenvalues -/

lemma discCov_nonneg (x y : List ℝ) : 0 ≤ discCov x y := by
  unfold discCov; positivity

lemma discCov_eq_tr_det (x y : List ℝ) :
    discCov x y = trCov x y ^ 2 - 4 * detCov x y := by
  unfold discCov trCov detCov; ring

lemma eig1_le_eig0 (x y : List ℝ) : eig1 x y ≤ eig0 x y := by
  have h := Real.sqrt_nonneg (discCov x y)
  unfold eig0 eig1; linarith

/-- The value `eig0` is a root of the characteristic polynomial of the 2x2
sample covariance matrix, i.e. it is an eigenvalue of that matrix. -/
lemma eig0_is_eigenvalue (x y : List ℝ) :
    eig0 x y ^ 2 - trCov x y * eig0 x y + detCov x y = 0 := by
  have hs : Real.sqrt (discCov x y) ^ 2 = trCov x y ^ 2 - 4 * detCov x y := by
    rw [Real.sq_sqrt (discCov_nonneg x y), discCov_eq_tr_det]
  unfold eig0
  linear_combination (1 / 4 : ℝ) * hs

/-- The value `eig1` is the other root of the characteristic polynomial of
the 2x2 sample covariance matrix. -/
lemma eig1_is_eigenvalue (x y : List ℝ) :
    eig1 x y ^ 2 - trCov x y * eig1 x y + detCov x y = 0 := by
  have hs : Real.sqrt (discCov x y) ^ 2 = trCov x y ^ 2 - 4 * detCov x y := by
    rw [Real.sq_sqrt (discCov_nonneg x y), discCov_eq_tr_det]
  unfold eig1
  linear_combination (1 / 4 : ℝ) * hs

/-! ## Supporting lemmas about the chi-squared quantile -/

lemma chi2Quantile2_nonneg {p : ℝ} (h0 : 0 < p) (h1 : p ≤ 1) :
    0 ≤ chi2Quantile2 p := by
  have hlog : Real.log (1 - p) ≤ 0 := Real.log_nonpos (by linarith) (by linarith)
  unfold chi2Quantile2; linarith

lemma chi2Quantile2_pos {p : ℝ} (h0 : 0 < p) (h1 : p < 1) :
    0 < chi2Quantile2 p := by
  have hlog : Real.log (1 - p) < 0 := Real.log_neg (by linarith) (by linarith)
  unfold chi2Quantile2; linarith

lemma chi2Quantile2_strictMono {p q : ℝ} (hpq : p < q) (hq : q < 1) :
    chi2Quantile2 p < chi2Quantile2 q := by
  have hlog : Real.log (1 - q) < Real.log (1 - p) :=
    Real.log_lt_log (by linarith) (by linarith)
  unfold chi2Quantile2; linarith

/-! ## Shape of the constructor results -/

lemma NewDataConfidence_ok {x y : List ℝ} {c : ℝ} {e : Ellipse1}
    (h : NewDataConfidence x y c = .ok e) :
    e = ⟨Real.sqrt (chi2Quantile2 c) * Real.sqrt (eig0 x y),
         Real.sqrt (chi2Quantile2 c) * Real.sqrt (eig1 x y),
         pcaAngle x y⟩ := by
  unfold NewDataConfidence at h
  split at h
  · exact absurd h (by simp)
  · split at h
    · exact absurd h (by simp)
    · split at h
      · exact absurd h (by simp)
      · cases h; rfl

lemma NewDataConfidence_eq_ok {x y : List ℝ} {c : ℝ}
    (hx : x.length ≠ 0) (hy : y.length ≠ 0) (hxy : x.length = y.length)
    (h0 : 0 < c) (h1 : c ≤ 1) :
    NewDataConfidence x y c =
      .ok ⟨Real.sqrt (chi2Quantile2 c) * Real.sqrt (eig0 x y),
           Real.sqrt (chi2Quantile2 c) * Real.sqrt (eig1 x y),
           pcaAngle x y⟩ := by
  unfold NewDataConfidence
  rw [if_neg (by push_neg; exact ⟨hx, hy⟩),
      if_neg (by simpa using hxy),
      if_neg (by push_neg; constructor <;> linarith)]

lemma NewWithConfidence_ok {x y : List ℝ} {c : ℝ} {e : Ellipse}
    (h : NewWithConfidence x y c = .ok e) :
    e = ⟨Real.sqrt (chi2Quantile2 c * eig0 x y),
         Real.sqrt (chi2Quantile2 c * eig1 x y),
         pcaAngle x y, mean x, mean y⟩ := by
  unfold NewWithConfidence at h
  split at h
  · exact absurd h (by simp)
  · cases h; rfl

lemma NewWithConfidence_eq_ok {x y : List ℝ} {c : ℝ} (h0 : 0 < c) (h1 : c ≤ 1) :
    NewWithConfidence x y c =
      .ok ⟨Real.sqrt (chi2Quantile2 c * eig0 x y),
           Real.sqrt (chi2Quantile2 c * eig1 x y),
           pcaAngle x y, mean x, mean y⟩ := by
  unfold NewWithConfidence
  rw [if_neg (by push_neg; constructor <;> linarith)]

lemma New_ok {a b angle : ℝ} {e : Ellipse} (h : New a b angle = .ok e) :
    e = ⟨a, b, angle, 0, 0⟩ := by
  unfold New at h
  split at h
  · exact absurd h (by simp)
  · cases h; rfl

/-! ## Concrete dataset computations -/

lemma covXY_xs12 : covXY xs12 xs12 = 1 / 2 := by
  unfold covXY mean xs12
  norm_num [List.zip]

lemma eig0_xs12 : eig0 xs12 xs12 = 1 := by
  unfold eig0 trCov discCov
  rw [covXY_xs12]
  norm_num [Real.sqrt_one]

lemma eig1_xs12 : eig1 xs12 xs12 = 0 := by
  unfold eig1 trCov discCov
  rw [covXY_xs12]
  norm_num [Real.sqrt_one]

lemma covXY_square_xx : covXY xsSquare xsSquare = 1 / 3 := by
  unfold covXY mean xsSquare
  norm_num [List.zip]

lemma covXY_square_yy : covXY ysSquare ysSquare = 1 / 3 := by
  unfold covXY mean ysSquare
  norm_num [List.zip]

lemma covXY_square_xy : covXY xsSquare ysSquare = 0 := by
  unfold covXY mean xsSquare ysSquare
  norm_num [List.zip]

lemma eig0_square : eig0 xsSquare ysSquare = 1 / 3 := by
  unfold eig0 trCov discCov
  rw [covXY_square_xx, covXY_square_yy, covXY_square_xy]
  norm_num [Real.sqrt_zero]

lemma eig1_square : eig1 xsSquare ysSquare = 1 / 3 := by
  unfold eig1 trCov discCov
  rw [covXY_square_xx, covXY_square_yy, covXY_square_xy]
  norm_num [Real.sqrt_zero]

/-! ## Claim theorems -/

/-- C1: for every dataset accepted by the confidence constructors and every
confidence in `(0, 1]`, the returned semi-axes are `a = sqrt(q * eig0)` and
`b = sqrt(q * eig1)` where `eig0 ≥ eig1` are the covariance eigenvalues in
descending order and `q` the chi-squared(2) quantile at the confidence (the
two revisions' scaling conventions `sqrt(q)*sqrt(lam)` and `sqrt(q*lam)`
agree); consequently `a ≥ b`. -/
theorem C1_axes_from_eigenvalues (x y : List ℝ) (c : ℝ)
    (e1 : Ellipse1) (e2 : Ellipse) (hc0 : 0 < c) (hc1 : c ≤ 1)
    (h1 : NewDataConfidence x y c = .ok e1)
    (h2 : NewWithConfidence x y c = .ok e2) :
    e1.a = Real.sqrt (chi2Quantile2 c * eig0 x y) ∧
    e1.b = Real.sqrt (chi2Quantile2 c * eig1 x y) ∧
    e2.a = Real.sqrt (chi2Quantile2 c * eig0 x y) ∧
    e2.b = Real.sqrt (chi2Quantile2 c * eig1 x y) ∧
    eig1 x y ≤ eig0 x y ∧ e1.b ≤ e1.a ∧ e2.b ≤ e2.a := by
  obtain rfl := NewDataConfidence_ok h1
  obtain rfl := NewWithConfidence_ok h2
  have hq : 0 ≤ chi2Quantile2 c := chi2Quantile2_nonneg hc0 hc1
  have hle : eig1 x y ≤ eig0 x y := eig1_le_eig0 x y
  have hmul0 : Real.sqrt (chi2Quantile2 c * eig0 x y) =
      Real.sqrt (chi2Quantile2 c) * Real.sqrt (eig0 x y) := Real.sqrt_mul hq _
  have hmul1 : Real.sqrt (chi2Quantile2 c * eig1 x y) =
      Real.sqrt (chi2Quantile2 c) * Real.sqrt (eig1 x y) := Real.sqrt_mul hq _
  refine ⟨hmul0.symm, hmul1.symm, rfl, rfl, hle, ?_, ?_⟩
  · exact mul_le_mul_of_nonneg_left (Real.sqrt_le_sqrt hle) (Real.sqrt_nonneg _)
  · exact Real.sqrt_le_sqrt (mul_le_mul_of_nonneg_left hle hq)

/-- Witness for C1 at the dataset `x = y = [1, 2]` and confidence `0.05`. -/
theorem C1_axes_from_eigenvalues_witness :
    (0 : ℝ) < 0.05 ∧ (0.05 : ℝ) ≤ 1 ∧
    NewDataConfidence xs12 xs12 0.05 = .ok scenarioEllipse1 ∧
    NewWithConfidence xs12 xs12 0.05 = .ok scenarioEllipse ∧
    scenarioEllipse1.b ≤ scenarioEllipse1.a ∧ scenarioEllipse.b ≤ scenarioEllipse.a := by
  have hd : NewDataConfidence xs12 xs12 0.05 = .ok scenarioEllipse1 :=
    NewDataConfidence_eq_ok (by norm_num [xs12]) (by norm_num [xs12]) rfl
      (by norm_num) (by norm_num)
  have hw : NewWithConfidence xs12 xs12 0.05 = .ok scenarioEllipse :=
    NewWithConfidence_eq_ok (by norm_num) (by norm_num)
  have h := C1_axes_from_eigenvalues xs12 xs12 0.05 scenarioEllipse1 scenarioEllipse
    (by norm_num) (by norm_num) hd hw
  exact ⟨by norm_num, by norm_num, hd, hw, h.2.2.2.2.2.1, h.2.2.2.2.2.2⟩

/-- C2 counterexample: on the scenario dataset `x=[1,2]`, `y=[1,2]` with
confidence `0.05`, statistical construction succeeds but the returned minor
semi-axis is `b = 0` (the two points are collinear, so the smaller
covariance eigenvalue is `0`), refuting the claimed `b > 0`. -/
theorem C2_counterexample :
    (NewDataConfidence xs12 xs12 0.05).get?.map Ellipse1.b = some 0 := by
  rw [NewDataConfidence_eq_ok (by norm_num [xs12]) (by norm_num [xs12]) rfl
    (by norm_num) (by norm_num)]
  simp [Outcome.get?, eig1_xs12, Real.sqrt_zero]

/-- C2 (amended): explicit construction always returns `a > 0` and `b > 0`
(and the embedding is purely functional, so no later operation changes
them); the scenario dataset succeeds with `a > 0` but `b = 0`, and in
general statistical construction guarantees only `0 ≤ b ≤ a`. -/
theorem C2_invariants :
    (∀ a b angle : ℝ, ∀ e : Ellipse, New a b angle = .ok e → 0 < e.a ∧ 0 < e.b) ∧
    (NewDataConfidence xs12 xs12 0.05).isOk = true ∧
    (NewDataConfidence xs12 xs12 0.05).get?.map Ellipse1.a =
      some (Real.sqrt (chi2Quantile2 0.05)) ∧
    0 < Real.sqrt (chi2Quantile2 0.05) ∧
    (NewDataConfidence xs12 xs12 0.05).get?.map Ellipse1.b = some 0 ∧
    (∀ x y : List ℝ, ∀ c : ℝ, ∀ e : Ellipse1, NewDataConfidence x y c = .ok e →
      0 ≤ e.b) := by
  have hd : NewDataConfidence xs12 xs12 0.05 = .ok scenarioEllipse1 :=
    NewDataConfidence_eq_ok (by norm_num [xs12]) (by norm_num [xs12]) rfl
      (by norm_num) (by norm_num)
  refine ⟨?_, ?_, ?_, ?_, ?_, ?_⟩
  · intro a b angle e he
    unfold New at he
    split at he
    · exact absurd he (by simp)
    · rename_i hcond
      push_neg at hcond
      cases he
      exact ⟨hcond.1, hcond.2⟩
  · rw [hd]; rfl
  · rw [hd]
    simp [Outcome.get?, scenarioEllipse1, eig0_xs12, Real.sqrt_one]
  · exact Real.sqrt_pos.2 (chi2Quantile2_pos (by norm_num) (by norm_num))
  · rw [hd]
    simp [Outcome.get?, scenarioEllipse1, eig1_xs12, Real.sqrt_zero]
  · intro x y c e he
    obtain rfl := NewDataConfidence_ok he
    exact mul_nonneg (Real.sqrt_nonneg _) (Real.sqrt_nonneg _)

/-- Witness for C2 (amended) at explicit parameters `a=3`, `b=4`. -/
theorem C2_invariants_witness :
    New 3 4 0 = .ok ⟨3, 4, 0, 0, 0⟩ ∧ (0 : ℝ) < 3 ∧ (0 : ℝ) < 4 := by
  have hnew : New 3 4 0 = .ok ⟨3, 4, 0, 0, 0⟩ := by
    unfold New
    rw [if_neg (by norm_num)]
  have h := C2_invariants.1 3 4 0 ⟨3, 4, 0, 0, 0⟩ hnew
  exact ⟨hnew, h.1, h.2⟩

/-- C3 counterexample: on empty `x` the constructor aborts with a Go panic
rather than returning a caller-recoverable structured error. -/
theorem C3_counterexample :
    (NewDataConfidence ([] : List ℝ) [1] 0.05).isErr = false ∧
    (NewDataConfidence ([] : List ℝ) [1] 0.05).isAbort = true :=
  ⟨rfl, rfl⟩

/-- C3 (amended): for every pair with `len(x) = 0` or `len(x) ≠ len(y)` and
every confidence value, `NewDataConfidence` aborts with a panic (it is not
a recoverable error), and the length check runs before any statistical
computation and regardless of the confidence value. -/
theorem C3_empty_or_mismatched_panics (x y : List ℝ) (c : ℝ)
    (h : x.length = 0 ∨ x.length ≠ y.length) :
    (NewDataConfidence x y c).isAbort = true ∧
    (NewDataConfidence x y c).isErr = false := by
  unfold NewDataConfidence
  rcases h with h | h
  · rw [if_pos (Or.inl h)]; exact ⟨rfl, rfl⟩
  · by_cases hy : y.length = 0
    · rw [if_pos (Or.inr hy)]; exact ⟨rfl, rfl⟩
    · by_cases hx : x.length = 0
      · rw [if_pos (Or.inl hx)]; exact ⟨rfl, rfl⟩
      · rw [if_neg (by push_neg; exact ⟨hx, hy⟩), if_pos h]; exact ⟨rfl, rfl⟩

/-- Witness for C3 (amended) at `x = []`, `y = [1]`, confidence `0.7`. -/
theorem C3_empty_or_mismatched_panics_witness :
    (([] : List ℝ).length = 0 ∨ ([] : List ℝ).length ≠ ([1] : List ℝ).length) ∧
    (NewDataConfidence ([] : List ℝ) [1] 0.7).isAbort = true := by
  have h := C3_empty_or_mismatched_panics ([] : List ℝ) [1] 0.7 (Or.inl rfl)
  exact ⟨Or.inl rfl, h.1⟩

/-- C7: explicit construction fails (an error, no object) exactly when
`a ≤ 0` or `b ≤ 0`, in both the 3-argument and the 5-argument revision; on
success the stored fields equal the supplied `a` and `b` unchanged. -/
theorem C7_explicit_construction (a b angle : ℝ) :
    ((New a b angle).isErr = true ↔ a ≤ 0 ∨ b ≤ 0) ∧
    ((New a b angle).isOk = true ↔ ¬(a ≤ 0 ∨ b ≤ 0)) ∧
    (∀ e : Ellipse, New a b angle = .ok e → e.a = a ∧ e.b = b) ∧
    (∀ x y : ℝ, ((NewXY x y a b angle).isErr = true ↔ a ≤ 0 ∨ b ≤ 0) ∧
      ∀ e : Ellipse, NewXY x y a b angle = .ok e → e.a = a ∧ e.b = b) := by
  refine ⟨?_, ?_, ?_, ?_⟩
  · by_cases h : a ≤ 0 ∨ b ≤ 0 <;> simp [New, h, Outcome.isErr]
  · by_cases h : a ≤ 0 ∨ b ≤ 0 <;> simp [New, h, Outcome.isOk]
  · intro e he
    unfold New at he
    split at he
    · exact absurd he (by simp)
    · cases he; exact ⟨rfl, rfl⟩
  · intro x y
    constructor
    · by_cases h : a ≤ 0 ∨ b ≤ 0 <;> simp [NewXY, h, Outcome.isErr]
    · intro e he
      unfold NewXY at he
      split at he
      · exact absurd he (by simp)
      · cases he; exact ⟨rfl, rfl⟩

/-- Witness for C7 at `a = 2`, `b = 1`, `angle = 0`. -/
theorem C7_explicit_construction_witness :
    ((New 2 1 0).isErr = true ↔ (2 : ℝ) ≤ 0 ∨ (1 : ℝ) ≤ 0) ∧
    New 2 1 0 = .ok ⟨2, 1, 0, 0, 0⟩ ∧
    (Ellipse.mk 2 1 0 0 0).a = 2 ∧ (Ellipse.mk 2 1 0 0 0).b = 1 := by
  have hnew : New 2 1 0 = .ok ⟨2, 1, 0, 0, 0⟩ := by
    unfold New
    rw [if_neg (by norm_num)]
  have h := C7_explicit_construction 2 1 0
  exact ⟨h.1, hnew, h.2.2.1 ⟨2, 1, 0, 0, 0⟩ hnew⟩

/-- C5: every generated curve point is the unrotated boundary point
`(a cos t, b sin t)` multiplied (as a row vector, matching the batched
`ellipseMx.Mul(ellipseMx, rotateMx)`) by `[[cos θ, sin θ], [-sin θ, cos θ]]`
and translated by the center, with the parameters evenly spaced over the
inclusive interval `[0, 2π]`; the center is `(0, 0)` for explicit
construction and the sample mean for statistical construction. -/
theorem C5_curve_points (e : Ellipse) (n : ℤ) (pts : List (ℝ × ℝ))
    (hn : 2 ≤ n) (h : LinePoints e n = .ok pts) :
    (∀ i : ℕ, i < n.toNat →
      pts[i]? = some
        (e.a * Real.cos ((i : ℝ) * (2 * Real.pi / ((n : ℝ) - 1))) * Real.cos e.angle
           - e.b * Real.sin ((i : ℝ) * (2 * Real.pi / ((n : ℝ) - 1))) * Real.sin e.angle
           + e.xmean,
         e.a * Real.cos ((i : ℝ) * (2 * Real.pi / ((n : ℝ) - 1))) * Real.sin e.angle
           + e.b * Real.sin ((i : ℝ) * (2 * Real.pi / ((n : ℝ) - 1))) * Real.cos e.angle
           + e.ymean)) ∧
    (span n.toNat)[0]? = some 0 ∧
    (span n.toNat)[n.toNat - 1]? = some (2 * Real.pi) ∧
    (∀ a b angle : ℝ, ∀ e0 : Ellipse, New a b angle = .ok e0 →
      e0.xmean = 0 ∧ e0.ymean = 0) ∧
    (∀ x y : List ℝ, ∀ c : ℝ, ∀ e1 : Ellipse, NewWithConfidence x y c = .ok e1 →
      e1.xmean = mean x ∧ e1.ymean = mean y) := by
  have hcast : ((n.toNat : ℕ) : ℝ) = (n : ℝ) := by
    have := Int.toNat_of_nonneg (by omega : (0 : ℤ) ≤ n)
    exact_mod_cast congrArg (fun z : ℤ => (z : ℝ)) this
  have hpts : pts = (span n.toNat).map (ellipsePoint e) := by
    unfold LinePoints at h
    rw [if_neg (by omega), if_neg (by omega)] at h
    cases h; rfl
  subst hpts
  refine ⟨?_, ?_, ?_, ?_, ?_⟩
  · intro i hi
    have h1 : (span n.toNat)[i]? = some ((i : ℝ) * (2 * Real.pi / ((n : ℝ) - 1))) := by
      unfold span
      rw [List.getElem?_map, List.getElem?_range hi, Option.map_some', hcast]
    rw [List.getElem?_map, h1]
    rfl
  · unfold span
    rw [List.getElem?_map, List.getElem?_range (by omega), Option.map_some']
    norm_num
  · have hm : (2 : ℕ) ≤ n.toNat := by omega
    have h2 : (2 : ℝ) ≤ (n.toNat : ℝ) := by exact_mod_cast hm
    have hne : ((n.toNat : ℕ) : ℝ) - 1 ≠ 0 := by linarith
    unfold span
    rw [List.getElem?_map, List.getElem?_range (by omega), Option.map_some']
    congr 1
    have hc : ((n.toNat - 1 : ℕ) : ℝ) = ((n.toNat : ℕ) : ℝ) - 1 := by
      have h1 : (1 : ℕ) ≤ n.toNat := by omega
      push_cast [h1]
      ring
    rw [hc, mul_comm, div_mul_cancel₀ _ hne]
  · intro a b angle e0 he
    obtain rfl := New_ok he
    exact ⟨rfl, rfl⟩
  · intro x y c e1 he
    obtain rfl := NewWithConfidence_ok he
    exact ⟨rfl, rfl⟩

/-- Witness for C5 at the test ellipse `(a=1, b=3, angle=π)`, `n = 3`, `i = 1`. -/
theorem C5_curve_points_witness :
    (2 : ℤ) ≤ 3 ∧ LinePoints testEllipse 3 = .ok testCurve3 ∧
    testCurve3[1]? = some
      (testEllipse.a * Real.cos ((1 : ℝ) * (2 * Real.pi / ((3 : ℝ) - 1)))
          * Real.cos testEllipse.angle
         - testEllipse.b * Real.sin ((1 : ℝ) * (2 * Real.pi / ((3 : ℝ) - 1)))
           * Real.sin testEllipse.angle
         + testEllipse.xmean,
       testEllipse.a * Real.cos ((1 : ℝ) * (2 * Real.pi / ((3 : ℝ) - 1)))
          * Real.sin testEllipse.angle
         + testEllipse.b * Real.sin ((1 : ℝ) * (2 * Real.pi / ((3 : ℝ) - 1)))
           * Real.cos testEllipse.angle
         + testEllipse.ymean) := by
  have hlp : LinePoints testEllipse 3 = .ok testCurve3 := by
    unfold LinePoints testCurve3
    rw [if_neg (by norm_num), if_neg (by norm_num)]
  have h := (C5_curve_points testEllipse 3 testCurve3 (by norm_num) hlp).1 1 (by decide)
  refine ⟨by norm_num, hlp, ?_⟩
  push_cast at h
  exact h

/-- C6 counterexample: with parameters `a=1`, `b=3`, `angle=π`, requesting a
curve of size 1 aborts with a panic (gonum `floats.Span` requires a
destination of length at least 2) instead of succeeding with one point, and
it is a panic rather than a structured error. -/
theorem C6_counterexample :
    (LinePoints testEllipse 1).isOk = false ∧
    (LinePoints testEllipse 1).isErr = false ∧
    (LinePoints testEllipse 1).isAbort = true :=
  ⟨rfl, rfl, rfl⟩

/-- C6 (amended): for parameters `(a=1, b=3, angle=π)`, every size `N ≥ 2`
succeeds with exactly `N` points (all finite in exact arithmetic); every
size below 2 — including the claimed-legal size 1 and all sizes below 1 —
aborts with a panic, and no `InvalidSizeError` is ever returned. -/
theorem C6_size_behaviour (n : ℤ) :
    (2 ≤ n → (LinePoints testEllipse n).get?.map List.length = some n.toNat) ∧
    (n < 2 → (LinePoints testEllipse n).isAbort = true ∧
      (LinePoints testEllipse n).isErr = false) := by
  constructor
  · intro hn
    unfold LinePoints
    rw [if_neg (by omega), if_neg (by omega)]
    simp only [Outcome.get?, Option.map_some', List.length_map, span,
      List.length_range]
  · intro hn
    unfold LinePoints
    by_cases h0 : n < 0
    · rw [if_pos h0]; exact ⟨rfl, rfl⟩
    · rw [if_neg h0, if_pos hn]; exact ⟨rfl, rfl⟩

/-- Witness for C6 (amended) at size 10, the size the Go unit test uses. -/
theorem C6_size_behaviour_witness :
    (2 : ℤ) ≤ 10 ∧
    (LinePoints testEllipse 10).get?.map List.length = some 10 := by
  have h := (C6_size_behaviour 10).1 (by norm_num)
  refine ⟨by norm_num, ?_⟩
  rw [h]
  rfl

/-- C8: for a fixed dataset with non-degenerate 2D spread (both covariance
eigenvalues positive) and confidences `c1 < c2` in `(0, 1)`, both derived
semi-axes strictly increase with the confidence.  (At `c2 = 1` the
chi-squared quantile is infinite, outside the real-valued model; the Go
float code then returns `+Inf` axes, which also exceed every finite axis.) -/
theorem C8_confidence_monotonicity (x y : List ℝ) (c1 c2 : ℝ)
    (e1 e2 : Ellipse) (h0 : 0 < c1) (h12 : c1 < c2) (h21 : c2 < 1)
    (hspread : 0 < eig1 x y)
    (H1 : NewWithConfidence x y c1 = .ok e1)
    (H2 : NewWithConfidence x y c2 = .ok e2) :
    e1.a < e2.a ∧ e1.b < e2.b := by
  obtain rfl := NewWithConfidence_ok H1
  obtain rfl := NewWithConfidence_ok H2
  have h0' : 0 < eig0 x y := lt_of_lt_of_le hspread (eig1_le_eig0 x y)
  have hq1 : 0 < chi2Quantile2 c1 := chi2Quantile2_pos h0 (lt_trans h12 h21)
  have hq : chi2Quantile2 c1 < chi2Quantile2 c2 := chi2Quantile2_strictMono h12 h21
  constructor
  · exact Real.sqrt_lt_sqrt (by positivity)
      (mul_lt_mul_of_pos_right hq h0')
  · exact Real.sqrt_lt_sqrt (by positivity)
      (mul_lt_mul_of_pos_right hq hspread)

/-- Witness for C8 at the unit-square dataset with confidences `0.5 < 0.95`. -/
theorem C8_confidence_monotonicity_witness :
    (0 : ℝ) < 0.5 ∧ (0.5 : ℝ) < 0.95 ∧ (0.95 : ℝ) < 1 ∧
    0 < eig1 xsSquare ysSquare ∧
    NewWithConfidence xsSquare ysSquare 0.5 = .ok sqEllipseHalf ∧
    NewWithConfidence xsSquare ysSquare 0.95 = .ok sqEllipse95 ∧
    sqEllipseHalf.a < sqEllipse95.a ∧ sqEllipseHalf.b < sqEllipse95.b := by
  have hspread : 0 < eig1 xsSquare ysSquare := by rw [eig1_square]; norm_num
  have H1 : NewWithConfidence xsSquare ysSquare 0.5 = .ok sqEllipseHalf :=
    NewWithConfidence_eq_ok (by norm_num) (by norm_num)
  have H2 : NewWithConfidence xsSquare ysSquare 0.95 = .ok sqEllipse95 :=
    NewWithConfidence_eq_ok (by norm_num) (by norm_num)
  have h := C8_confidence_monotonicity xsSquare ysSquare 0.5 0.95
    sqEllipseHalf sqEllipse95 (by norm_num) (by norm_num) (by norm_num) hspread H1 H2
  exact ⟨by norm_num, by norm_num, by norm_num, hspread, H1, H2, h.1, h.2⟩

/-- C9: curve generation is a pure function of the five ellipse fields and
the requested size — two calls on componentwise-equal inputs return
identical point sequences (the embedding is stateless by construction,
mirroring that the Go method reads only its receiver's fields and allocates
fresh slices). -/
theorem C9_deterministic (e1 e2 : Ellipse) (n m : ℤ)
    (ha : e1.a = e2.a) (hb : e1.b = e2.b) (hangle : e1.angle = e2.angle)
    (hx : e1.xmean = e2.xmean) (hy : e1.ymean = e2.ymean) (hnm : n = m) :
    LinePoints e1 n = LinePoints e2 m := by
  have he : e1 = e2 := by
    cases e1; cases e2
    congr 1
  rw [he, hnm]

/-- Witness for C9 at the test ellipse and size 4. -/
theorem C9_deterministic_witness :
    LinePoints ⟨1, 3, Real.pi, 0, 0⟩ 4 = LinePoints ⟨1, 3, Real.pi, 0, 0⟩ 4 :=
  C9_deterministic ⟨1, 3, Real.pi, 0, 0⟩ ⟨1, 3, Real.pi, 0, 0⟩ 4 4
    rfl rfl rfl rfl rfl rfl

/-- C10 counterexample: the confidence ellipse of the unit-square dataset
at confidence `0.5` is constructed successfully with `a = b` (the covariance
matrix is `(1/3)·I`, so the two eigenvalues are equal), refuting the claim
that every successfully constructed confidence ellipse has `a > b`. -/
theorem C10_counterexample :
    (NewDataConfidence xsSquare ysSquare 0.5).isOk = true ∧
    (NewDataConfidence xsSquare ysSquare 0.5).get?.map Ellipse1.a =
      (NewDataConfidence xsSquare ysSquare 0.5).get?.map Ellipse1.b := by
  rw [@NewDataConfidence_eq_ok xsSquare ysSquare 0.5 (by norm_num [xsSquare])
    (by norm_num [ysSquare]) rfl (by norm_num) (by norm_num)]
  refine ⟨rfl, ?_⟩
  simp [Outcome.get?, eig0_square, eig1_square]

/-- C10 (amended): for an ellipse with `b > 0`: when `a > b` the
eccentricity radicand `1 - a²/b²` is negative, so the IEEE square root is
NaN; the radicand is nonnegative only when `a ≤ b`, and for `0 < a ≤ b` the
eccentricity lies in `[0, 1)`.  Confidence ellipses always satisfy `b ≤ a`,
but equality occurs (equal eigenvalues), so not every confidence ellipse is
in the NaN regime. -/
theorem C10_eccentricity (e : Ellipse1) (hb : 0 < e.b) :
    (e.b < e.a → e.eccRadicand < 0) ∧
    (0 ≤ e.eccRadicand → e.a ≤ e.b) ∧
    (0 < e.a → e.a ≤ e.b →
      0 ≤ e.eccRadicand ∧ 0 ≤ e.Eccentricity ∧ e.Eccentricity < 1) ∧
    (∀ x y : List ℝ, ∀ c : ℝ, ∀ e1 : Ellipse1,
      NewDataConfidence x y c = .ok e1 → e1.b ≤ e1.a) := by
  have hb2 : 0 < e.b * e.b := mul_pos hb hb
  refine ⟨?_, ?_, ?_, ?_⟩
  · intro hba
    have haa : e.b * e.b < e.a * e.a := by nlinarith
    have h1 : 1 < e.a * e.a / (e.b * e.b) := (one_lt_div hb2).2 haa
    unfold Ellipse1.eccRadicand
    linarith
  · intro hrad
    have h1 : e.a * e.a / (e.b * e.b) ≤ 1 := by
      unfold Ellipse1.eccRadicand at hrad
      linarith
    have haa : e.a * e.a ≤ e.b * e.b := (div_le_one hb2).1 h1
    by_contra hlt
    push_neg at hlt
    nlinarith
  · intro ha hab
    have haa : e.a * e.a ≤ e.b * e.b := by nlinarith
    have h1 : e.a * e.a / (e.b * e.b) ≤ 1 := (div_le_one hb2).2 haa
    have hpos : 0 < e.a * e.a / (e.b * e.b) := by positivity
    have hrad0 : 0 ≤ e.eccRadicand := by
      unfold Ellipse1.eccRadicand
      linarith
    have hrad1 : e.eccRadicand < 1 := by
      unfold Ellipse1.eccRadicand
      linarith
    refine ⟨hrad0, Real.sqrt_nonneg _, ?_⟩
    unfold Ellipse1.Eccentricity
    calc Real.sqrt e.eccRadicand < Real.sqrt 1 := Real.sqrt_lt_sqrt hrad0 hrad1
    _ = 1 := Real.sqrt_one
  · intro x y c e1 he
    obtain rfl := NewDataConfidence_ok he
    exact mul_le_mul_of_nonneg_left (Real.sqrt_le_sqrt (eig1_le_eig0 x y))
      (Real.sqrt_nonneg _)

/-- Witness for C10 (amended) at the ellipse `a = 3`, `b = 1`: the radicand
is negative, so the float eccentricity is NaN. -/
theorem C10_eccentricity_witness :
    (0 : ℝ) < (Ellipse1.mk 3 1 0).b ∧
    ((Ellipse1.mk 3 1 0).b < (Ellipse1.mk 3 1 0).a →
      (Ellipse1.mk 3 1 0).eccRadicand < 0) ∧
    (Ellipse1.mk 3 1 0).b < (Ellipse1.mk 3 1 0).a := by
  have h := C10_eccentricity ⟨3, 1, 0⟩ (by norm_num)
  exact ⟨by norm_num, h.1, by norm_num⟩

end

end Gollipse
